import Mathlib

/-
Verification development for the stroke_bot conversation engine
(src/stroke_bot/conversation_engine/).  The Python sources are embedded
shallowly: the mutable `ConversationStateMachine` and `ConversationFlow`
objects become explicit state-passing functions, `datetime.now()` becomes
an explicit clock parameter (an hour in [0,24) and a timestamp in
seconds), and Python dicts (which preserve insertion order) become
association lists.  The dialogue document `stroke_sen1.yml` is not part
of the sources and is modelled from the spec where needed.
-/

namespace StrokeBot

/- ===== Character and string helpers =====
Python `str.lower()` restricted to ASCII (sufficient for the keyword
lists of the source, which are pure ASCII) and the Python substring test
`needle in haystack`. -/

def lowerChar (c : Char) : Char :=
  if 'A' ≤ c ∧ c ≤ 'Z' then Char.ofNat (c.toNat + 32) else c

def lowerStr (s : String) : String :=
  String.mk (s.data.map lowerChar)

def startsWithChars : List Char → List Char → Bool
  | [], _ => true
  | _ :: _, [] => false
  | a :: as, b :: bs => a == b && startsWithChars as bs

def hasSubChars (needle : List Char) : List Char → Bool
  | [] => startsWithChars needle []
  | c :: rest => startsWithChars needle (c :: rest) || hasSubChars needle rest

def containsSub (needle haystack : String) : Bool :=
  hasSubChars needle.data haystack.data

/- Python `str.replace(old, new)`: replace every non-overlapping
occurrence, scanning left to right.  The fuel argument is instantiated
with the length of the scanned list, which bounds the recursion. -/
def replaceChars (pat rep : List Char) : Nat → List Char → List Char
  | 0, l => l
  | _ + 1, [] => []
  | fuel + 1, c :: rest =>
    if pat ≠ [] ∧ startsWithChars pat (c :: rest) = true then
      rep ++ replaceChars pat rep fuel (List.drop (pat.length - 1) rest)
    else
      c :: replaceChars pat rep fuel rest

def replaceAll (pat rep s : String) : String :=
  String.mk (replaceChars pat.data rep.data s.data.length s.data)

def joinWith (sep : String) : List String → String
  | [] => ""
  | [s] => s
  | s :: rest => s ++ sep ++ joinWith sep rest

/- ===== ConversationState (state_machine.py, class ConversationState) ===== -/

inductive ConversationState
  | idle
  | greeting
  | consent
  | knowledgeCheck
  | generalWellbeing
  | medications
  | followupCare
  | lifestyle
  | dailyActivities
  | resources
  | wrapup
  | emergencyExit
  | completed
  | error
deriving DecidableEq

/- The `.value` strings of the Python enum. -/
def stateValue : ConversationState → String
  | .idle => "idle"
  | .greeting => "greeting"
  | .consent => "consent"
  | .knowledgeCheck => "knowledge_check"
  | .generalWellbeing => "general_wellbeing"
  | .medications => "medications"
  | .followupCare => "followup_care"
  | .lifestyle => "lifestyle"
  | .dailyActivities => "daily_activities"
  | .resources => "resources"
  | .wrapup => "wrapup"
  | .emergencyExit => "emergency_exit"
  | .completed => "completed"
  | .error => "error"

/- ===== ConversationContext (state_machine.py, dataclass) =====
`responses` is a Python dict (insertion-ordered); modelled as an
association list where overwriting a key keeps its position and a new
key is appended (exactly Python dict update semantics).
`start_time` is a timestamp in seconds (datetime.now() at creation is
passed explicitly). -/

structure ConversationContext where
  patient_name : String := ""
  honorific : String := ""
  time_of_day : String := ""
  organization : String := ""
  site : String := ""
  start_time : Nat := 0
  current_question_index : Nat := 0
  responses : List (String × String) := []
  emergency_detected : Bool := false
deriving DecidableEq

/- Python `d[k] = v` on an insertion-ordered dict. -/
def storeResponse (k v : String) : List (String × String) → List (String × String)
  | [] => [(k, v)]
  | (k', v') :: rest =>
    if k' = k then (k, v) :: rest else (k', v') :: storeResponse k v rest

/- Python `d.get(k)`. -/
def getResponse (k : String) : List (String × String) → Option String
  | [] => none
  | (k', v) :: rest => if k' = k then some v else getResponse k rest

def hasKey (k : String) (rs : List (String × String)) : Bool :=
  rs.any fun p => p.1 == k

/- ===== StateTransition and the transition table ===== -/

structure StateTransition where
  from_state : ConversationState
  to_state : ConversationState
  condition : Option (ConversationContext → Bool) := none
  action : Option (ConversationContext → ConversationContext) := none

/- ConversationStateMachine._create_transitions, in source order. -/
def create_transitions : List StateTransition :=
  [ -- Initial flow
    { from_state := .idle, to_state := .greeting },
    { from_state := .greeting, to_state := .consent },
    -- Consent handling
    { from_state := .consent, to_state := .knowledgeCheck,
      condition := some fun ctx => decide (getResponse "consent" ctx.responses = some "yes") },
    { from_state := .consent, to_state := .emergencyExit,
      condition := some fun ctx => decide (getResponse "consent" ctx.responses = some "no") },
    -- Main conversation flow
    { from_state := .knowledgeCheck, to_state := .generalWellbeing },
    { from_state := .generalWellbeing, to_state := .medications },
    { from_state := .medications, to_state := .followupCare },
    { from_state := .followupCare, to_state := .lifestyle },
    { from_state := .lifestyle, to_state := .dailyActivities },
    { from_state := .dailyActivities, to_state := .resources },
    { from_state := .resources, to_state := .wrapup },
    { from_state := .wrapup, to_state := .completed },
    -- Emergency handling
    { from_state := .greeting, to_state := .emergencyExit,
      condition := some fun ctx => ctx.emergency_detected },
    { from_state := .consent, to_state := .emergencyExit,
      condition := some fun ctx => ctx.emergency_detected },
    { from_state := .knowledgeCheck, to_state := .emergencyExit,
      condition := some fun ctx => ctx.emergency_detected },
    { from_state := .generalWellbeing, to_state := .emergencyExit,
      condition := some fun ctx => ctx.emergency_detected },
    { from_state := .medications, to_state := .emergencyExit,
      condition := some fun ctx => ctx.emergency_detected },
    { from_state := .followupCare, to_state := .emergencyExit,
      condition := some fun ctx => ctx.emergency_detected },
    { from_state := .lifestyle, to_state := .emergencyExit,
      condition := some fun ctx => ctx.emergency_detected },
    { from_state := .dailyActivities, to_state := .emergencyExit,
      condition := some fun ctx => ctx.emergency_detected },
    { from_state := .resources, to_state := .emergencyExit,
      condition := some fun ctx => ctx.emergency_detected },
    -- Error handling
    { from_state := .error, to_state := .idle } ]

/- ===== ConversationStateMachine ===== -/

structure Machine where
  current_state : ConversationState := .idle
  context : ConversationContext := {}
  state_history : List ConversationState := []
deriving DecidableEq

/- _get_time_of_day, with datetime.now().hour passed explicitly. -/
def getTimeOfDay (hour : Nat) : String :=
  if 5 ≤ hour ∧ hour < 12 then "morning"
  else if 12 ≤ hour ∧ hour < 17 then "afternoon"
  else "evening"

/- start_conversation: fresh context, state GREETING, history [GREETING].
`hour` is datetime.now().hour, `now` the creation timestamp. -/
def start_conversation (hour now : Nat)
    (patient_name honorific organization site : String) : Machine :=
  { current_state := .greeting,
    context :=
      { patient_name := patient_name,
        honorific := honorific,
        organization := organization,
        site := site,
        time_of_day := getTimeOfDay hour,
        start_time := now },
    state_history := [.greeting] }

/- _detect_emergency: case-insensitive substring match against the
fixed keyword list. -/
def emergency_keywords : List String :=
  ["emergency", "911", "urgent", "help", "pain", "chest pain",
   "can\x27t breathe", "can\x27t speak", "numb", "paralyzed", "stroke"]

def detect_emergency (response : String) : Bool :=
  emergency_keywords.any fun keyword => containsSub keyword (lowerStr response)

def condHolds (ctx : ConversationContext) : Option (ConversationContext → Bool) → Bool
  | none => true
  | some c => c ctx

/- First transition in declaration order whose from_state matches and
whose condition (if any) holds: the search loop of _try_transition. -/
def findTransition (s : ConversationState) (ctx : ConversationContext) :
    List StateTransition → Option StateTransition
  | [] => none
  | t :: rest =>
    if t.from_state = s ∧ condHolds ctx t.condition = true then some t
    else findTransition s ctx rest

def applyAction (ctx : ConversationContext) :
    Option (ConversationContext → ConversationContext) → ConversationContext
  | none => ctx
  | some a => a ctx

/- _try_transition: apply the first matching rule (running its action,
updating state and appending to history) and report whether one fired. -/
def try_transition (m : Machine) : Bool × Machine :=
  match findTransition m.current_state m.context create_transitions with
  | some t =>
    (true,
      { m with
        context := applyAction m.context t.action,
        current_state := t.to_state,
        state_history := m.state_history ++ [t.to_state] })
  | none => (false, m)

/- process_response: store the answer, run emergency detection, then
attempt one transition.  (The Python try/except around this body can
only be entered on an exception; none of the operations here raises.) -/
def process_response (m : Machine) (question_key response : String) : Bool × Machine :=
  let ctx1 := { m.context with responses := storeResponse question_key response m.context.responses }
  let ctx2 := if detect_emergency response then { ctx1 with emergency_detected := true } else ctx1
  try_transition { m with context := ctx2 }

def is_conversation_active (m : Machine) : Bool :=
  !([ConversationState.completed, ConversationState.emergencyExit,
     ConversationState.error].contains m.current_state)

def is_emergency_exit (m : Machine) : Bool :=
  m.current_state == .emergencyExit

def is_completed (m : Machine) : Bool :=
  m.current_state == .completed

/- get_conversation_summary, with datetime.now() passed as `now`.
start_time is always set by __post_init__, so duration is total. -/
structure ConversationSummary where
  patient_name : String
  start_time : Nat
  duration_seconds : Nat
  final_state : String
  total_responses : Nat
  emergency_detected : Bool
  state_history : List String
  responses : List (String × String)
deriving DecidableEq

def get_conversation_summary (m : Machine) (now : Nat) : ConversationSummary :=
  { patient_name := m.context.patient_name,
    start_time := m.context.start_time,
    duration_seconds := now - m.context.start_time,
    final_state := stateValue m.current_state,
    total_responses := m.context.responses.length,
    emergency_detected := m.context.emergency_detected,
    state_history := m.state_history.map stateValue,
    responses := m.context.responses }

/- reset: back to IDLE with a fresh context (created at time `now`). -/
def resetMachine (now : Nat) : Machine :=
  { current_state := .idle,
    context := { start_time := now },
    state_history := [] }

/- ===== Dialogue definition (yaml_parser.py data model) ===== -/

structure Question where
  key : String
  type : String
  prompt : String
  on_deny : Option String := none
  -- the source dataclass field is named `section` (a reserved word here)
  section_label : Option String := none
deriving DecidableEq

structure ConversationMeta where
  organization : String
  service_name : String
  site : String
  version : String
  description : String
deriving DecidableEq

/- Parsed dialogue document together with the (non-fatal)
structural-validation report. -/
structure DialogueDefinition where
  meta : ConversationMeta
  greeting_template_vars : List String
  questions : List Question
  wrapup_message : String
  emergency_disclaimer : String
  stroke_warning_signs : List String
  validation_issues : List String := []
deriving DecidableEq

/- YAMLConversationParser.get_question_by_key: first question with the key. -/
def get_question_by_key (d : DialogueDefinition) (k : String) : Option Question :=
  d.questions.find? fun q => q.key == k

/- YAMLConversationParser.get_consent_question. -/
def get_consent_question (d : DialogueDefinition) : Option Question :=
  get_question_by_key d "consent"

/-- Modelled from the spec: the dialogue document `stroke_sen1.yml` is
referenced by the sources but is not among them.  Per spec sections 3
and 6 it defines metadata, a greeting template, a flow with a
yes/no-confirm consent question and one question per section under the
keys bound by the prompt generator (consent, know_ischemic,
general_feeling, meds_pickup, fup_scheduled, lifestyle_adherence,
adl_support, who_to_call), a wrap-up message, an emergency disclaimer
and a warning-sign list; its validation report is empty. -/
def specDialogue : DialogueDefinition :=
  { meta :=
      { organization := "Org",
        service_name := "Stroke Navigator",
        site := "Site",
        version := "1",
        description := "Post-discharge stroke follow-up" },
    greeting_template_vars :=
      ["timeofday", "honorific", "patient_name", "organization", "site"],
    questions :=
      [ { key := "consent", type := "confirm",
          prompt := "May we proceed with a few questions about your recovery?",
          on_deny := some "I understand. We will not proceed with the call." },
        { key := "know_ischemic", type := "free",
          prompt := "Can you tell me what you understand about ischemic stroke?",
          section_label := some "knowledge" },
        { key := "general_feeling", type := "free",
          prompt := "How have you been feeling overall since discharge?",
          section_label := some "general_wellbeing" },
        { key := "meds_pickup", type := "confirm",
          prompt := "Were you able to pick up your medications?",
          section_label := some "medications" },
        { key := "fup_scheduled", type := "confirm",
          prompt := "Is your follow-up appointment scheduled?",
          section_label := some "followup_care" },
        { key := "lifestyle_adherence", type := "free",
          prompt := "How are you doing with the recommended lifestyle changes?",
          section_label := some "lifestyle" },
        { key := "adl_support", type := "free",
          prompt := "Do you have the support you need for daily activities?",
          section_label := some "daily_activities" },
        { key := "who_to_call", type := "free",
          prompt := "Do you know who to contact if you have questions?",
          section_label := some "resources" } ],
    wrapup_message :=
      "Thank you for your time today. Your care team will review your answers.",
    emergency_disclaimer :=
      "If you are experiencing a medical emergency, please hang up and call 911 immediately.",
    stroke_warning_signs :=
      ["Sudden numbness or weakness of the face, arm, or leg",
       "Sudden confusion or trouble speaking",
       "Sudden trouble seeing",
       "Sudden severe headache"],
    validation_issues := [] }

/- ===== Prompt generator (prompt_generator.py) ===== -/

/- PromptGenerator.get_question_by_state: the state_to_key mapping
followed by a key lookup. -/
def state_to_key : ConversationState → Option String
  | .consent => some "consent"
  | .knowledgeCheck => some "know_ischemic"
  | .generalWellbeing => some "general_feeling"
  | .medications => some "meds_pickup"
  | .followupCare => some "fup_scheduled"
  | .lifestyle => some "lifestyle_adherence"
  | .dailyActivities => some "adl_support"
  | .resources => some "who_to_call"
  | _ => none

def get_question_by_state (d : DialogueDefinition) (s : ConversationState) : Option Question :=
  match state_to_key s with
  | some k => get_question_by_key d k
  | none => none

/-- Modelled from the spec: the greeting template string lives in the
missing `stroke_sen1.yml`; per the spec it is filled with time-of-day,
honorific, patient name, organization and site (generate_greeting_prompt
in the source passes the meta organization and site of the
definition for the last two). -/
def generate_greeting_prompt (d : DialogueDefinition) (ctx : ConversationContext) : String :=
  "Good " ++ ctx.time_of_day ++ ", " ++ ctx.honorific ++ " " ++ ctx.patient_name ++
  ". This is a call from " ++ d.meta.organization ++ " at " ++ d.meta.site ++ "."

/- PromptGenerator._get_relevant_context -/
def get_relevant_context (q : Question) (ctx : ConversationContext) : String :=
  if q.section_label == some "medications" && hasKey "meds" ctx.responses then
    "Based on your previous responses about medications..."
  else if q.section_label == some "followup_care" && hasKey "fup" ctx.responses then
    "Regarding your follow-up care..."
  else ""

/- PromptGenerator.generate_question_prompt -/
def generate_question_prompt (q : Question) (ctx : ConversationContext) : String :=
  let info := get_relevant_context q ctx
  if info = "" then q.prompt else q.prompt ++ "\n\n" ++ info

/- PromptGenerator.generate_emergency_prompt -/
def generate_emergency_prompt (d : DialogueDefinition) : String :=
  d.emergency_disclaimer ++ "\n\nStroke warning signs to watch for:\n" ++
  joinWith "\n" (d.stroke_warning_signs.map fun sign => "- " ++ sign)

/- PromptGenerator.generate_wrapup_prompt -/
def generate_wrapup_prompt (d : DialogueDefinition) (ctx : ConversationContext) : String :=
  if ctx.patient_name = "" then d.wrapup_message
  else replaceAll "Thank you" ("Thank you, " ++ ctx.patient_name) d.wrapup_message

/- ===== Flow orchestrator (conversation_flow.py) ===== -/

structure LogEvent where
  timestamp : Nat
  event_type : String
  data : List (String × String)
deriving DecidableEq

/- One ConversationFlow instance; the LLM callback is modelled as
absent (None), so rendered prompts are returned directly. -/
structure Flow where
  dialogue : DialogueDefinition
  machine : Machine := {}
  conversation_log : List LogEvent := []
deriving DecidableEq

/- ConversationFlow._generate_state_response (llm_callback = None). -/
def generate_state_response (f : Flow) : String :=
  match f.machine.current_state with
  | .emergencyExit => generate_emergency_prompt f.dialogue
  | .wrapup => generate_wrapup_prompt f.dialogue f.machine.context
  | .completed => "Thank you for completing the assessment. Have a great day!"
  | .error => "I apologize for the technical difficulty. Please try again later."
  | s =>
    match get_question_by_state f.dialogue s with
    | some q => generate_question_prompt q f.machine.context
    | none => "Let me ask you about your recovery..."

/- ConversationFlow._handle_special_state.  For GREETING the machine is
advanced by a bare _try_transition and the consent prompt is returned;
the submitted message is neither recorded nor scanned. -/
def handle_special_state (f : Flow) (state : ConversationState) : String × Flow :=
  match state with
  | .greeting =>
    let f1 := { f with machine := (try_transition f.machine).2 }
    match get_consent_question f1.dialogue with
    | some q => (q.prompt, f1)
    | none =>
      ("I\x27m not sure how to respond to that. Let me continue with our assessment.", f1)
  | .idle => ("Let me start by greeting you...", f)
  | _ => ("I\x27m not sure how to respond to that. Let me continue with our assessment.", f)

/- ConversationFlow.process_patient_response; `now` is the wall clock
used as the timestamp of the log entry. -/
def process_patient_response (f : Flow) (now : Nat) (response : String) : String × Flow :=
  let current_state := f.machine.current_state
  let f1 := { f with conversation_log := f.conversation_log ++
    [{ timestamp := now, event_type := "patient_response",
       data := [("state", stateValue current_state), ("response", response)] }] }
  match get_question_by_state f1.dialogue current_state with
  | some q =>
    let r := process_response f1.machine q.key response
    let f2 := { f1 with machine := r.2 }
    if r.1 then (generate_state_response f2, f2)
    else
      ("I\x27m sorry, I didn\x27t quite catch that. Could you please repeat your response?", f2)
  | none => handle_special_state f1 current_state

/- ConversationFlow.start_conversation: empty organization/site fall
back to the metadata of the definition (Python `or`). -/
def flow_start_conversation (f : Flow) (hour now : Nat)
    (patient_name honorific organization site : String) : String × Flow :=
  let org := if organization = "" then f.dialogue.meta.organization else organization
  let st := if site = "" then f.dialogue.meta.site else site
  let m := start_conversation hour now patient_name honorific org st
  let greeting := generate_greeting_prompt f.dialogue m.context
  let f1 := { f with
    machine := m,
    conversation_log := f.conversation_log ++
      [{ timestamp := now, event_type := "conversation_started",
         data := [("patient_name", patient_name), ("greeting", greeting)] }] }
  (greeting, f1)

/- ConversationFlow.get_conversation_status, clock passed as `now`. -/
structure ConversationStatus where
  current_state : String
  is_active : Bool
  is_emergency : Bool
  is_completed : Bool
  patient_name : String
  responses_count : Nat
  conversation_duration : Nat
deriving DecidableEq

def get_conversation_status (f : Flow) (now : Nat) : ConversationStatus :=
  { current_state := stateValue f.machine.current_state,
    is_active := is_conversation_active f.machine,
    is_emergency := is_emergency_exit f.machine,
    is_completed := is_completed f.machine,
    patient_name := f.machine.context.patient_name,
    responses_count := f.machine.context.responses.length,
    conversation_duration := now - f.machine.context.start_time }

/- ConversationFlow.get_conversation_summary: the machine summary plus
the conversation log and the validation report of the loader. -/
structure FlowSummary where
  machine_summary : ConversationSummary
  conversation_log : List LogEvent
  validation_issues : List String
deriving DecidableEq

def flow_get_conversation_summary (f : Flow) (now : Nat) : FlowSummary :=
  { machine_summary := get_conversation_summary f.machine now,
    conversation_log := f.conversation_log,
    validation_issues := f.dialogue.validation_issues }

/- A freshly constructed ConversationFlow over the modelled dialogue. -/
def newFlow : Flow :=
  { dialogue := specDialogue }

/- ===== Helper lemmas ===== -/

/- Looking up a key right after storing it yields the stored value
(Python: d[k] = v; d.get(k) == v). -/
theorem getResponse_store (k v : String) (rs : List (String × String)) :
    getResponse k (storeResponse k v rs) = some v := by
  induction rs with
  | nil => simp [storeResponse, getResponse]
  | cons p rest ih =>
    by_cases h : p.1 = k
    · simp [storeResponse, getResponse, h]
    · simp [storeResponse, getResponse, h, ih]

theorem findTransition_mem {s : ConversationState} {ctx : ConversationContext} :
    ∀ {l : List StateTransition} {t : StateTransition},
      findTransition s ctx l = some t → t ∈ l := by
  intro l
  induction l with
  | nil => intro t h; simp [findTransition] at h
  | cons a rest ih =>
    intro t h
    by_cases hc : a.from_state = s ∧ condHolds ctx a.condition = true
    · rw [findTransition, if_pos hc, Option.some.injEq] at h
      exact h ▸ List.mem_cons_self a rest
    · rw [findTransition, if_neg hc] at h
      exact List.mem_cons_of_mem a (ih h)

/- Every rule in the transition table of the source has action = None. -/
theorem action_none_of_mem {t : StateTransition} (h : t ∈ create_transitions) :
    t.action = none := by
  fin_cases h <;> rfl

/- _try_transition never touches the context (no rule has an action). -/
theorem try_transition_context (m : Machine) :
    ((try_transition m).2).context = m.context := by
  unfold try_transition
  cases h : findTransition m.current_state m.context create_transitions with
  | none => rfl
  | some t =>
    simp only []
    rw [action_none_of_mem (findTransition_mem h)]
    rfl

/- process_response mutates the context exactly by recording the answer
and or-ing the detector verdict into the emergency flag. -/
theorem process_response_context (m : Machine) (k msg : String) :
    ((process_response m k msg).2).context =
      { m.context with
        responses := storeResponse k msg m.context.responses,
        emergency_detected := m.context.emergency_detected || detect_emergency msg } := by
  unfold process_response
  rw [try_transition_context]
  cases hd : detect_emergency msg
  · simp [hd]
  · simp [hd]

theorem process_response_flag (m : Machine) (k msg : String) :
    ((process_response m k msg).2).context.emergency_detected =
      (m.context.emergency_detected || detect_emergency msg) := by
  rw [process_response_context]

/- Submit on the orchestrator, in a state with a bound question, drives
the machine exactly through process_response on the key of that question. -/
theorem ppr_machine (f : Flow) (now : Nat) (msg : String) (q : Question)
    (hq : get_question_by_state f.dialogue f.machine.current_state = some q) :
    ((process_patient_response f now msg).2).machine =
      (process_response f.machine q.key msg).2 := by
  unfold process_patient_response
  simp only [hq]
  cases hr : (process_response f.machine q.key msg).1 <;> simp [hr]

/- No rule of the table leaves COMPLETED. -/
theorem findTransition_completed (ctx : ConversationContext) :
    findTransition ConversationState.completed ctx create_transitions = none := rfl

/- No rule of the table leaves EMERGENCY_EXIT. -/
theorem findTransition_emergencyExit (ctx : ConversationContext) :
    findTransition ConversationState.emergencyExit ctx create_transitions = none := rfl

/- The only rule leaving ERROR is the unconditional ERROR -> IDLE rule. -/
theorem findTransition_error (ctx : ConversationContext) :
    findTransition ConversationState.error ctx create_transitions =
      some { from_state := .error, to_state := .idle } := rfl

/- The three rules leaving CONSENT, in declaration order. -/
theorem findTransition_consent (ctx : ConversationContext) :
    findTransition ConversationState.consent ctx create_transitions =
      (if getResponse "consent" ctx.responses = some "yes" then
        some { from_state := .consent, to_state := .knowledgeCheck,
               condition := some fun c => decide (getResponse "consent" c.responses = some "yes") }
      else if getResponse "consent" ctx.responses = some "no" then
        some { from_state := .consent, to_state := .emergencyExit,
               condition := some fun c => decide (getResponse "consent" c.responses = some "no") }
      else if ctx.emergency_detected = true then
        some { from_state := .consent, to_state := .emergencyExit,
               condition := some fun c => c.emergency_detected }
      else none) := by
  by_cases h1 : getResponse "consent" ctx.responses = some "yes"
  · simp [findTransition, create_transitions, condHolds, h1]
  · by_cases h2 : getResponse "consent" ctx.responses = some "no"
    · simp [findTransition, create_transitions, condHolds, h1, h2]
    · by_cases h3 : ctx.emergency_detected = true
      · simp [findTransition, create_transitions, condHolds, h1, h2, h3]
      · simp [findTransition, create_transitions, condHolds, h1, h2, h3]

/- ===== Claim theorems ===== -/

/-- C4: Once the emergency flag of a session is true, it stays true
across every subsequent submit (process_response never clears it); only
an explicit reset (which builds a fresh context) yields a false flag. -/
theorem c4_emergency_flag_monotone (m : Machine) (k msg : String)
    (h : m.context.emergency_detected = true) :
    ((process_response m k msg).2).context.emergency_detected = true ∧
    (∀ now : Nat, (resetMachine now).context.emergency_detected = false) := by
  refine ⟨?_, fun _ => rfl⟩
  rw [process_response_flag, h, Bool.true_or]

def c4_machine : Machine :=
  { current_state := ConversationState.generalWellbeing,
    context := { emergency_detected := true } }

theorem c4_witness :
    ((process_response c4_machine "general_feeling" "I feel better").2).context.emergency_detected = true :=
  (c4_emergency_flag_monotone c4_machine "general_feeling" "I feel better" rfl).1

/-- C6: is_conversation_active is false exactly on the three terminal
states Completed, EmergencyExit and Error, and true on every other
state of the enumeration. -/
theorem c6_is_active_iff (m : Machine) :
    is_conversation_active m = false ↔
      (m.current_state = ConversationState.completed ∨
       m.current_state = ConversationState.emergencyExit ∨
       m.current_state = ConversationState.error) := by
  rcases m with ⟨s, ctx, hist⟩
  cases s <;> simp [is_conversation_active]

/-- C9: A session start computes the time-of-day bucket from the
wall-clock hour with boundaries [5,12) morning, [12,17) afternoon and
evening everywhere else. -/
theorem c9_time_of_day (h now : Nat) (name hon org site : String) :
    (start_conversation h now name hon org site).context.time_of_day = getTimeOfDay h ∧
    (5 ≤ h ∧ h < 12 → getTimeOfDay h = "morning") ∧
    (12 ≤ h ∧ h < 17 → getTimeOfDay h = "afternoon") ∧
    (h < 5 ∨ 17 ≤ h → getTimeOfDay h = "evening") := by
  refine ⟨rfl, ?_, ?_, ?_⟩
  · intro hh
    simp [getTimeOfDay, hh]
  · intro hh
    have h1 : ¬(5 ≤ h ∧ h < 12) := by omega
    simp [getTimeOfDay, h1, hh]
  · intro hh
    have h1 : ¬(5 ≤ h ∧ h < 12) := by omega
    have h2 : ¬(12 ≤ h ∧ h < 17) := by omega
    simp [getTimeOfDay, h1, h2]

theorem c9_witness : getTimeOfDay 9 = "morning" :=
  (c9_time_of_day 9 0 "Jane" "Ms." "Org" "Site").2.1 (by omega)

/-- C10: Every submit records the message under the supplied question
key and or-s the detector verdict into the emergency flag before the
transition search runs on the updated context; even when no rule fires
these mutations are kept, and no other context field changes. -/
theorem c10_record_before_transition (m : Machine) (k msg : String) :
    process_response m k msg =
      try_transition { m with context :=
        { m.context with
          responses := storeResponse k msg m.context.responses,
          emergency_detected := m.context.emergency_detected || detect_emergency msg } } ∧
    ((process_response m k msg).2).context.responses = storeResponse k msg m.context.responses ∧
    ((process_response m k msg).2).context.emergency_detected =
      (m.context.emergency_detected || detect_emergency msg) ∧
    ((process_response m k msg).2).context.patient_name = m.context.patient_name ∧
    ((process_response m k msg).2).context.honorific = m.context.honorific ∧
    ((process_response m k msg).2).context.time_of_day = m.context.time_of_day ∧
    ((process_response m k msg).2).context.organization = m.context.organization ∧
    ((process_response m k msg).2).context.site = m.context.site ∧
    ((process_response m k msg).2).context.start_time = m.context.start_time ∧
    ((process_response m k msg).2).context.current_question_index = m.context.current_question_index := by
  constructor
  · unfold process_response
    cases hd : detect_emergency msg <;> simp [hd]
  · simp [process_response_context]

/-- C5 (amended): submit on Completed or EmergencyExit matches no rule:
it returns false and leaves the current state unchanged (no error is
possible, the operation is total).  From Error the unconditional
Error→Idle rule fires, returning true and moving to Idle — but this is
not a full session reset: the recorded answers and the emergency flag
survive the transition; only reset() clears them. -/
theorem c5_terminal_submit (m : Machine) (k msg : String) :
    ((m.current_state = ConversationState.completed ∨
      m.current_state = ConversationState.emergencyExit) →
      (process_response m k msg).1 = false ∧
      (process_response m k msg).2.current_state = m.current_state) ∧
    (m.current_state = ConversationState.error →
      (process_response m k msg).1 = true ∧
      (process_response m k msg).2.current_state = ConversationState.idle ∧
      (process_response m k msg).2.context.responses = storeResponse k msg m.context.responses ∧
      (process_response m k msg).2.context.emergency_detected =
        (m.context.emergency_detected || detect_emergency msg)) := by
  constructor
  · rintro (h | h) <;>
    · unfold process_response try_transition
      simp [h, findTransition_completed, findTransition_emergencyExit]
  · intro h
    refine ⟨?_, ?_, ?_, ?_⟩
    · unfold process_response try_transition
      simp [h, findTransition_error]
    · unfold process_response try_transition
      simp [h, findTransition_error]
    · rw [process_response_context]
    · rw [process_response_context]

def c5_machine : Machine :=
  { current_state := ConversationState.completed,
    context := { responses := [("consent", "yes")] },
    state_history := [] }

theorem c5_witness :
    (process_response c5_machine "wrapup" "bye").1 = false ∧
    (process_response c5_machine "wrapup" "bye").2.current_state = ConversationState.completed :=
  (c5_terminal_submit c5_machine "wrapup" "bye").1 (Or.inl rfl)

def c5_error_machine : Machine :=
  { current_state := ConversationState.error,
    context := { emergency_detected := true, responses := [("consent", "yes")] },
    state_history := [] }

/-- C5 counterexample: from Error, submit does fire the Error→Idle rule
(returning true), yet the session is not fully reset — the emergency
flag and the recorded answers are still there afterwards, unlike after
reset(). -/
theorem c5_counterexample :
    (process_response c5_error_machine "q" "ok").1 = true ∧
    (process_response c5_error_machine "q" "ok").2.current_state = ConversationState.idle ∧
    (process_response c5_error_machine "q" "ok").2.context.emergency_detected = true ∧
    ¬ (process_response c5_error_machine "q" "ok").2.context.responses = [] ∧
    (resetMachine 0).context.emergency_detected = false ∧
    (resetMachine 0).context.responses = [] := by decide

/-- C3 (amended): from Consent, only the exact lowercase answer "no"
triggers the Consent→EmergencyExit rule; an answer whose lowercasing is
"no" never reaches KnowledgeCheck, but a differently-cased variant such
as "No" matches neither consent rule, so (absent an already-set
emergency flag) no transition occurs and the state stays Consent. -/
/- Full outcome of a consent-state submit whose message is neither
"yes" nor an emergency keyword carrier: the three consent rules in
declaration order. -/
theorem consent_submit_eq (m : Machine) (msg : String)
    (hs : m.current_state = ConversationState.consent)
    (hyes : ¬ msg = "yes") (hdet : detect_emergency msg = false) :
    process_response m "consent" msg =
      (if msg = "no" then
        (true,
          { m with
            context := { m.context with responses := storeResponse "consent" msg m.context.responses },
            current_state := ConversationState.emergencyExit,
            state_history := m.state_history ++ [ConversationState.emergencyExit] })
      else if m.context.emergency_detected = true then
        (true,
          { m with
            context := { m.context with responses := storeResponse "consent" msg m.context.responses },
            current_state := ConversationState.emergencyExit,
            state_history := m.state_history ++ [ConversationState.emergencyExit] })
      else
        (false,
          { m with
            context := { m.context with responses := storeResponse "consent" msg m.context.responses } })) := by
  have hpr : process_response m "consent" msg =
      try_transition { m with context :=
        { m.context with responses := storeResponse "consent" msg m.context.responses } } := by
    unfold process_response
    simp [hdet]
  rw [hpr]
  unfold try_transition
  simp only [hs, findTransition_consent, getResponse_store]
  rw [if_neg (fun h => hyes (Option.some_injective _ h))]
  by_cases hno : msg = "no"
  · have hsome : some msg = some "no" := by rw [hno]
    rw [if_pos hsome, if_pos hno]
    rfl
  · have hsome : ¬ (some msg = some "no") := fun h => hno (Option.some_injective _ h)
    rw [if_neg hsome, if_neg hno]
    by_cases hem : m.context.emergency_detected = true
    · rw [if_pos hem, if_pos hem]
      rfl
    · rw [if_neg hem, if_neg hem]

/-- C3 (amended): from Consent, only the exact lowercase answer "no"
triggers the Consent→EmergencyExit rule; an answer whose lowercasing is
"no" never reaches KnowledgeCheck, but a differently-cased variant such
as "No" matches neither consent rule, so (absent an already-set
emergency flag) no transition occurs and the state stays Consent. -/
theorem c3_consent_no_case_sensitive (m : Machine) (msg : String)
    (hs : m.current_state = ConversationState.consent) (hl : lowerStr msg = "no") :
    ¬ (process_response m "consent" msg).2.current_state = ConversationState.knowledgeCheck ∧
    (msg = "no" →
      (process_response m "consent" msg).1 = true ∧
      (process_response m "consent" msg).2.current_state = ConversationState.emergencyExit) ∧
    (¬ msg = "no" → m.context.emergency_detected = false →
      (process_response m "consent" msg).1 = false ∧
      (process_response m "consent" msg).2.current_state = ConversationState.consent) := by
  have hyes : ¬ msg = "yes" := by
    intro h
    rw [h] at hl
    exact absurd hl (by decide)
  have hdet : detect_emergency msg = false := by
    unfold detect_emergency
    simp only [hl]
    decide
  have he := consent_submit_eq m msg hs hyes hdet
  refine ⟨?_, fun hno => ?_, fun hno hflag => ?_⟩
  · rw [he]
    by_cases hno : msg = "no"
    · rw [if_pos hno]
      simp
    · rw [if_neg hno]
      by_cases hem : m.context.emergency_detected = true
      · rw [if_pos hem]
        simp
      · rw [if_neg hem]
        simp [hs]
  · rw [he, if_pos hno]
    exact ⟨rfl, rfl⟩
  · rw [he, if_neg hno, if_neg (show ¬ m.context.emergency_detected = true by simp [hflag])]
    exact ⟨rfl, hs⟩

def c3_machine : Machine :=
  { current_state := ConversationState.consent,
    context := { patient_name := "Jane" },
    state_history := [ConversationState.greeting, ConversationState.consent] }

theorem c3_witness :
    (process_response c3_machine "consent" "no").1 = true ∧
    (process_response c3_machine "consent" "no").2.current_state = ConversationState.emergencyExit :=
  (c3_consent_no_case_sensitive c3_machine "no" rfl (by decide)).2.1 rfl

/-- C3 counterexample: the consent guards compare with the raw strings
"yes"/"no" (case-sensitively), so submitting "No" from Consent does not
transition to EmergencyExit at all — no rule matches and the state
stays Consent, refuting the case-insensitive claim. -/
theorem c3_counterexample :
    c3_machine.current_state = ConversationState.consent ∧
    lowerStr "No" = "no" ∧
    (process_response c3_machine "consent" "No").1 = false ∧
    (process_response c3_machine "consent" "No").2.current_state = ConversationState.consent ∧
    ¬ (process_response c3_machine "consent" "No").2.current_state =
        ConversationState.emergencyExit := by decide

/-- C2 (amended): for a message carrying an emergency keyword submitted
from a state with a bound question (Consent through Resources), the
orchestrator always runs the detector and the emergency flag is true
after the call, whatever the transition outcome; but from Greeting and
Wrapup — non-terminal, non-Idle states with no bound question — the
orchestrator routes around the state machine and the flag is not set. -/
theorem c2_keyword_sets_flag_in_question_states (m : Machine) (lg : List LogEvent)
    (now : Nat) (msg : String)
    (hs : m.current_state ∈
      [ConversationState.consent, ConversationState.knowledgeCheck,
       ConversationState.generalWellbeing, ConversationState.medications,
       ConversationState.followupCare, ConversationState.lifestyle,
       ConversationState.dailyActivities, ConversationState.resources])
    (he : detect_emergency msg = true) :
    ((process_patient_response ⟨specDialogue, m, lg⟩ now msg).2).machine.context.emergency_detected
      = true := by
  have hq : ∃ q, get_question_by_state specDialogue m.current_state = some q := by
    simp only [List.mem_cons, List.not_mem_nil, or_false] at hs
    rcases hs with h | h | h | h | h | h | h | h <;> rw [h] <;> exact ⟨_, rfl⟩
  obtain ⟨q, hq⟩ := hq
  rw [ppr_machine ⟨specDialogue, m, lg⟩ now msg q hq, process_response_flag, he, Bool.or_true]

def c2_machine : Machine :=
  { current_state := ConversationState.consent,
    context := { patient_name := "Jane" },
    state_history := [ConversationState.greeting, ConversationState.consent] }

theorem c2_witness :
    ((process_patient_response ⟨specDialogue, c2_machine, []⟩ 0 "please help").2).machine.context.emergency_detected
      = true :=
  c2_keyword_sets_flag_in_question_states c2_machine [] 0 "please help" (by decide) (by decide)

def c2_flow0 : Flow :=
  (flow_start_conversation newFlow 10 0 "Jane" "Ms." "Org" "Site").2

/-- C2 counterexample: "help" is an emergency keyword and Greeting is a
non-terminal state other than Idle, yet the orchestrator, finding no
question bound to Greeting, advances the machine without ever calling
process_response, so the emergency flag stays false after the call. -/
theorem c2_counterexample :
    detect_emergency "help" = true ∧
    c2_flow0.machine.current_state = ConversationState.greeting ∧
    is_conversation_active c2_flow0.machine = true ∧
    ¬ c2_flow0.machine.current_state = ConversationState.idle ∧
    ((process_patient_response c2_flow0 0 "help").2).machine.context.emergency_detected
      = false := by decide

/- ===== C1: the scripted emergency scenario, evaluated ===== -/

def c1_flow0 : Flow := (flow_start_conversation newFlow 10 0 "Jane" "Ms." "Org" "Site").2
def c1_flow1 : Flow := (process_patient_response c1_flow0 0 "hello").2
def c1_flow2 : Flow := (process_patient_response c1_flow1 0 "yes").2
def c1_flow3 : Flow := (process_patient_response c1_flow2 0 "I understand strokes").2
def c1_step : String × Flow := process_patient_response c1_flow3 0 "I have chest pain"

/-- C1: evaluating the scripted scenario on the code: begin, "hello",
"yes", "I understand strokes" do reach GeneralWellbeing, and "I have
chest pain" does set the emergency flag — but the first-match rule
search hits the unconditional GeneralWellbeing→Medications rule, which
is declared before the emergency rule of that state, so the machine lands in
Medications, the session stays active, and the turn returns the next
question, not the emergency disclaimer plus warning-sign list. -/
theorem c1_emergency_scenario_behavior :
    c1_flow1.machine.current_state = ConversationState.consent ∧
    c1_flow2.machine.current_state = ConversationState.knowledgeCheck ∧
    c1_flow3.machine.current_state = ConversationState.generalWellbeing ∧
    (c1_step.2).machine.context.emergency_detected = true ∧
    (c1_step.2).machine.current_state = ConversationState.medications ∧
    ¬ (c1_step.2).machine.current_state = ConversationState.emergencyExit ∧
    is_conversation_active (c1_step.2).machine = true ∧
    c1_step.1 = "Were you able to pick up your medications?" ∧
    ¬ c1_step.1 = generate_emergency_prompt specDialogue := by decide

/- ===== C7: the full normal run, evaluated ===== -/

def c7_flow0 : Flow := (flow_start_conversation newFlow 14 0 "Jane" "Ms." "Org" "Site").2
def c7_flow1 : Flow := (process_patient_response c7_flow0 0 "hello").2
def c7_flow2 : Flow := (process_patient_response c7_flow1 0 "yes").2
def c7_flow3 : Flow := (process_patient_response c7_flow2 0 "A clot blocks a vessel").2
def c7_flow4 : Flow := (process_patient_response c7_flow3 0 "I feel fine").2
def c7_flow5 : Flow := (process_patient_response c7_flow4 0 "yes").2
def c7_flow6 : Flow := (process_patient_response c7_flow5 0 "yes").2
def c7_flow7 : Flow := (process_patient_response c7_flow6 0 "I walk daily").2
def c7_flow8 : Flow := (process_patient_response c7_flow7 0 "I get around on my own").2
def c7_flow9 : Flow := (process_patient_response c7_flow8 0 "my doctor").2
def c7_step : String × Flow := process_patient_response c7_flow9 0 "okay"

/-- C7: evaluating a full normal run on the code: the answers are
recorded one per question asked, in answer order, and the history
starts at greeting — but the run can never reach Completed: Wrapup has
no bound question and is not handled as a special state, so every
submit at Wrapup returns the fallback text and leaves the machine
untouched; the exported history ends at "wrapup", not "completed". -/
theorem c7_wrapup_never_reaches_completed :
    c7_flow9.machine.context.emergency_detected = false ∧
    (flow_get_conversation_summary c7_flow9 0).machine_summary.responses =
      [("consent", "yes"), ("know_ischemic", "A clot blocks a vessel"),
       ("general_feeling", "I feel fine"), ("meds_pickup", "yes"),
       ("fup_scheduled", "yes"), ("lifestyle_adherence", "I walk daily"),
       ("adl_support", "I get around on my own"), ("who_to_call", "my doctor")] ∧
    (flow_get_conversation_summary c7_flow9 0).machine_summary.state_history =
      ["greeting", "consent", "knowledge_check", "general_wellbeing", "medications",
       "followup_care", "lifestyle", "daily_activities", "resources", "wrapup"] ∧
    c7_flow9.machine.current_state = ConversationState.wrapup ∧
    (c7_step.2).machine = c7_flow9.machine ∧
    ¬ (c7_step.2).machine.current_state = ConversationState.completed ∧
    c7_step.1 = "I\x27m not sure how to respond to that. Let me continue with our assessment."
    := by decide

/- ===== C8: snapshot idempotence ===== -/

def c8_flow : Flow := (flow_start_conversation newFlow 15 0 "Jane" "Ms." "Org" "Site").2

/-- C8 counterexample: both status() and exportSummary() embed an
elapsed-duration field computed from the wall clock at the call, so two
consecutive calls, between which the clock advanced (here from second 1
to second 2), return different results. -/
theorem c8_counterexample :
    ¬ get_conversation_status c8_flow 1 = get_conversation_status c8_flow 2 ∧
    ¬ flow_get_conversation_summary c8_flow 1 = flow_get_conversation_summary c8_flow 2 := by
  decide

/-- C8 (amended): status() and exportSummary() are pure functions of
the session state and the clock; with no intervening submit or begin,
repeated calls agree on every field except the elapsed-duration field,
which tracks the clock (and the results are fully identical when the
clock reading is the same). -/
theorem c8_snapshots_pure_except_duration (f : Flow) (t1 t2 : Nat) :
    (get_conversation_status f t1).current_state = (get_conversation_status f t2).current_state ∧
    (get_conversation_status f t1).is_active = (get_conversation_status f t2).is_active ∧
    (get_conversation_status f t1).is_emergency = (get_conversation_status f t2).is_emergency ∧
    (get_conversation_status f t1).is_completed = (get_conversation_status f t2).is_completed ∧
    (get_conversation_status f t1).patient_name = (get_conversation_status f t2).patient_name ∧
    (get_conversation_status f t1).responses_count = (get_conversation_status f t2).responses_count ∧
    (flow_get_conversation_summary f t1).conversation_log =
      (flow_get_conversation_summary f t2).conversation_log ∧
    (flow_get_conversation_summary f t1).validation_issues =
      (flow_get_conversation_summary f t2).validation_issues ∧
    (flow_get_conversation_summary f t1).machine_summary.patient_name =
      (flow_get_conversation_summary f t2).machine_summary.patient_name ∧
    (flow_get_conversation_summary f t1).machine_summary.start_time =
      (flow_get_conversation_summary f t2).machine_summary.start_time ∧
    (flow_get_conversation_summary f t1).machine_summary.final_state =
      (flow_get_conversation_summary f t2).machine_summary.final_state ∧
    (flow_get_conversation_summary f t1).machine_summary.total_responses =
      (flow_get_conversation_summary f t2).machine_summary.total_responses ∧
    (flow_get_conversation_summary f t1).machine_summary.emergency_detected =
      (flow_get_conversation_summary f t2).machine_summary.emergency_detected ∧
    (flow_get_conversation_summary f t1).machine_summary.state_history =
      (flow_get_conversation_summary f t2).machine_summary.state_history ∧
    (flow_get_conversation_summary f t1).machine_summary.responses =
      (flow_get_conversation_summary f t2).machine_summary.responses :=
  ⟨rfl, rfl, rfl, rfl, rfl, rfl, rfl, rfl, rfl, rfl, rfl, rfl, rfl, rfl, rfl⟩

end StrokeBot
